import Mathlib

/-!
Verification of the reverse-ML simulation pipeline
(`generate_doe_matrix.py`, `create_simulation_matrix.py`, `run_automation.py`,
`database_operations.py`) against its natural-language specification.

Numeric columns are modelled over `ℚ` (exact arithmetic in place of Python
floats); Python dictionaries used as counter tables are modelled as
association lists so that a missing key is observable (KeyError).
-/

namespace BiooilPipeline

/-! ## DOE generator (`generate_doe_matrix.py`) -/

/-- One parameter specification, mirroring an entry of the `PARAMETERS`
dictionary in `generate_doe_matrix.py`: minimum, maximum and level count.
(The `description` string is irrelevant to the computation and omitted.)
Level counts are modelled as naturals; `numpy.linspace` rejects negative
sample counts outright, so `0` is the representative of "level count < 1". -/
structure ParamConfig where
  minv : ℚ
  maxv : ℚ
  levels : ℕ
deriving DecidableEq

/-- `numpy.linspace a b n` with `endpoint=True`, modelled over `ℚ`:
`n` evenly spaced samples from `a` to `b` inclusive; for `n = 1` the single
sample is `a`; for `n = 0` the result is empty. -/
def linspace (a b : ℚ) (n : ℕ) : List ℚ :=
  if n ≤ 1 then (List.range n).map (fun _ => a)
  else (List.range n).map (fun i : ℕ => a + (i : ℚ) * (b - a) / ((n : ℚ) - 1))

/-- `generate_parameter_levels` from `generate_doe_matrix.py`: reads the
spec's min/max/levels and returns `np.linspace(min, max, levels)`.  The
source performs no validation of the spec. -/
def generate_parameter_levels (c : ParamConfig) : List ℚ :=
  linspace c.minv c.maxv c.levels

/-- `itertools.product` on a list of lists: all tuples, the first list
varying slowest (lexicographic order), as `generate_doe_matrix` uses it
on the per-parameter level lists. -/
def itertoolsProduct : List (List α) → List (List α)
  | [] => [[]]
  | l :: ls => l.flatMap (fun x => (itertoolsProduct ls).map (fun t => x :: t))

/-- `generate_doe_matrix` from `generate_doe_matrix.py`: the full
factorial grid over the given parameter specs — levels per parameter via
`generate_parameter_levels`, combined by `itertools.product`.  (The source
instantiates this with the three fixed `PARAMETERS` entries; the derived
constant columns and `ConditionId` numbering added afterwards do not change
the number or order of grid rows.) -/
def generate_doe_matrix (cfgs : List ParamConfig) : List (List ℚ) :=
  itertoolsProduct (cfgs.map generate_parameter_levels)

theorem length_linspace (a b : ℚ) (n : ℕ) : (linspace a b n).length = n := by
  unfold linspace
  split <;> simp

theorem sum_map_const {α : Type} (l : List α) (k : ℕ) :
    (l.map (fun _ => k)).sum = l.length * k := by
  induction l with
  | nil => simp
  | cons x l ih => simp [ih, Nat.succ_mul, Nat.add_comm]

theorem length_itertoolsProduct {α : Type} (ls : List (List α)) :
    (itertoolsProduct ls).length = (ls.map List.length).prod := by
  induction ls with
  | nil => rfl
  | cons l ls ih =>
    simp only [itertoolsProduct, List.length_flatMap, Function.comp_def, List.length_map,
      List.map_cons, List.prod_cons]
    rw [sum_map_const, ih]

theorem length_generate_doe_matrix (cfgs : List ParamConfig) :
    (generate_doe_matrix cfgs).length = (cfgs.map ParamConfig.levels).prod := by
  unfold generate_doe_matrix
  rw [length_itertoolsProduct, List.map_map]
  congr 1
  apply List.map_congr_left
  intro c _
  simp [generate_parameter_levels, length_linspace]

theorem linspace_one (a b : ℚ) : linspace a b 1 = [a] := by
  simp [linspace, List.range_succ]

theorem linspace_two_le (a b : ℚ) (n : ℕ) (hn : 2 ≤ n) :
    linspace a b n
      = (List.range n).map (fun i : ℕ => a + (i : ℚ) * (b - a) / ((n : ℚ) - 1)) := by
  unfold linspace
  rw [if_neg (by omega)]

theorem linspace_mem_min (a b : ℚ) (n : ℕ) (hn : 1 ≤ n) : a ∈ linspace a b n := by
  rcases Nat.lt_or_ge n 2 with h | h
  · have : n = 1 := by omega
    subst this
    simp [linspace_one]
  · rw [linspace_two_le a b n h]
    have h0 : (0 : ℕ) ∈ List.range n := List.mem_range.mpr (by omega)
    exact List.mem_map.mpr ⟨0, h0, by simp⟩

theorem linspace_mem_max (a b : ℚ) (n : ℕ) (hn : 2 ≤ n) : b ∈ linspace a b n := by
  rw [linspace_two_le a b n hn]
  have h0 : n - 1 ∈ List.range n := List.mem_range.mpr (by omega)
  refine List.mem_map.mpr ⟨n - 1, h0, ?_⟩
  have h1 : ((n - 1 : ℕ) : ℚ) = (n : ℚ) - 1 := by
    rw [Nat.cast_sub (by omega : 1 ≤ n), Nat.cast_one]
  have h2 : (n : ℚ) - 1 ≠ 0 := by
    have h3 : (2 : ℚ) ≤ (n : ℚ) := by exact_mod_cast hn
    intro h
    nlinarith
  rw [h1]
  field_simp

theorem linspace_chain (a b : ℚ) (n : ℕ) (hab : a < b) :
    (linspace a b n).Chain' (· < ·) := by
  rcases Nat.lt_or_ge n 2 with h | h
  · interval_cases n
    · simp [linspace]
    · simp [linspace_one]
  · rw [linspace_two_le a b n h]
    have hn1 : (0 : ℚ) < (n : ℚ) - 1 := by
      have h3 : (2 : ℚ) ≤ (n : ℚ) := by exact_mod_cast h
      linarith
    have hpos : (0 : ℚ) < (b - a) / ((n : ℚ) - 1) := div_pos (by linarith) hn1
    have hch : List.Chain' (· < ·) (List.range n) :=
      List.chain'_iff_pairwise.mpr (List.pairwise_lt_range n)
    refine List.chain'_map_of_chain' _ ?_ hch
    intro i j hij
    have hcast : (i : ℚ) < (j : ℚ) := by exact_mod_cast hij
    have key : (i : ℚ) * ((b - a) / ((n : ℚ) - 1)) < (j : ℚ) * ((b - a) / ((n : ℚ) - 1)) :=
      mul_lt_mul_of_pos_right hcast hpos
    rw [← mul_div_assoc, ← mul_div_assoc] at key
    linarith [key]

/-- C6 (amended): for every list of valid ParameterSpecs (minimum < maximum,
level count ≥ 1) with level counts (L1,...,Ln), the DOE generator produces
exactly L1×...×Ln conditions and each parameter's generated value list is
strictly increasing and includes its declared minimum; it also includes the
declared maximum whenever the level count is at least 2, while a level count
of exactly 1 yields the single value [minimum] (the maximum is not included
in that case). -/
theorem claim_C6 (cfgs : List ParamConfig)
    (h : ∀ c ∈ cfgs, c.minv < c.maxv ∧ 1 ≤ c.levels) :
    (generate_doe_matrix cfgs).length = (cfgs.map ParamConfig.levels).prod
      ∧ ∀ c ∈ cfgs,
          (generate_parameter_levels c).Chain' (· < ·)
          ∧ c.minv ∈ generate_parameter_levels c
          ∧ (2 ≤ c.levels → c.maxv ∈ generate_parameter_levels c)
          ∧ (c.levels = 1 → generate_parameter_levels c = [c.minv]) := by
  refine ⟨length_generate_doe_matrix cfgs, ?_⟩
  intro c hc
  obtain ⟨hlt, hlev⟩ := h c hc
  refine ⟨linspace_chain _ _ _ hlt, linspace_mem_min _ _ _ hlev, ?_, ?_⟩
  · intro h2
    exact linspace_mem_max _ _ _ h2
  · intro h1
    unfold generate_parameter_levels
    rw [h1]
    exact linspace_one _ _

/-- C6 (counterexample): the spec `{min: 0, max: 1, levels: 1}` is valid
under the claim's hypothesis (minimum < maximum, level count ≥ 1), yet the
generated value list is `[0]`, which does not include the declared
maximum 1 — `np.linspace(min, max, 1)` returns only the start point. -/
theorem claim_C6_counterexample :
    ((0 : ℚ) < 1 ∧ 1 ≤ (1 : ℕ))
      ∧ generate_parameter_levels ⟨0, 1, 1⟩ = [0]
      ∧ ¬ ((1 : ℚ) ∈ generate_parameter_levels ⟨0, 1, 1⟩) := by
  refine ⟨⟨by norm_num, le_refl 1⟩, rfl, ?_⟩
  intro hmem
  simp [generate_parameter_levels, linspace, List.range_succ] at hmem

/-- C6 (witness): instantiating the amended claim at the concrete spec
`{min: 650, max: 850, levels: 5}` from the spec's scenario; the generated
values are exactly [650, 700, 750, 800, 850]. -/
theorem claim_C6_witness :
    generate_parameter_levels ⟨650, 850, 5⟩ = [650, 700, 750, 800, 850]
      ∧ (generate_doe_matrix [⟨650, 850, 5⟩]).length
          = (([⟨650, 850, 5⟩] : List ParamConfig).map ParamConfig.levels).prod
      ∧ (650 : ℚ) ∈ generate_parameter_levels ⟨650, 850, 5⟩
      ∧ (850 : ℚ) ∈ generate_parameter_levels ⟨650, 850, 5⟩ := by
  have h := claim_C6 [⟨650, 850, 5⟩] (by
    intro c hc
    simp only [List.mem_singleton] at hc
    subst hc
    exact ⟨by norm_num, by norm_num⟩)
  obtain ⟨hlen, hall⟩ := h
  obtain ⟨_, hmin, hmax, _⟩ := hall ⟨650, 850, 5⟩ (List.mem_singleton.mpr rfl)
  exact ⟨by norm_num [generate_parameter_levels, linspace, List.range_succ],
    hlen, hmin, hmax (by norm_num)⟩

/-- C7 (amended): the DOE generator performs no validation of parameter
specs.  For every spec — including level count 0 and minimum ≥ maximum —
it raises no configuration error and simply returns the linspace grid
(of length equal to the level count per parameter, hence a full-factorial
matrix with ∏ Li rows); there is no error path in the source
(`generate_parameter_levels` and `generate_doe_matrix` contain no raise
and no check of the spec). -/
theorem claim_C7 (cfgs : List ParamConfig) :
    (generate_doe_matrix cfgs).length = (cfgs.map ParamConfig.levels).prod
      ∧ ∀ c ∈ cfgs, (generate_parameter_levels c).length = c.levels := by
  refine ⟨length_generate_doe_matrix cfgs, ?_⟩
  intro c _
  exact length_linspace _ _ _

/-- C7 (counterexample): with minimum 850 > maximum 650 and 2 levels the
generator produces the decreasing grid [850, 650] instead of raising, and
with level count 0 it produces the empty grid instead of raising; in both
cases a matrix is built from the invalid spec. -/
theorem claim_C7_counterexample :
    generate_parameter_levels ⟨850, 650, 2⟩ = [850, 650]
      ∧ generate_parameter_levels ⟨650, 850, 0⟩ = []
      ∧ (generate_doe_matrix [⟨850, 650, 2⟩]).length = 2 := by
  refine ⟨by norm_num [generate_parameter_levels, linspace, List.range_succ], rfl, ?_⟩
  rw [length_generate_doe_matrix]
  rfl

/-! ## Matrix builder (`create_simulation_matrix.py`) -/

/-- One row of `biooil_compositions_30.csv`: the composition identifier and
the six mass-fraction components.  Components are `Option ℚ` because the
validator checks critical columns for missing (pandas-null) values. -/
structure BiooilRec where
  biooilId : ℤ
  aromatics : Option ℚ
  acids : Option ℚ
  alcohols : Option ℚ
  furans : Option ℚ
  phenols : Option ℚ
  aldehyde_ketone : Option ℚ
deriving DecidableEq

/-- One row of `doe_matrix.csv` as consumed by the matrix builder: the
condition identifier and the three swept parameters (possibly missing). -/
structure CondRec where
  conditionId : ℤ
  temp : Option ℚ
  pres : Option ℚ
  sc : Option ℚ
deriving DecidableEq

/-- One row of the produced simulation matrix: the assigned sequential
`SimulationId` together with all columns of the bio-oil row and all columns
of the condition row (the pandas merge concatenates the two rows). -/
structure SimTask where
  simulationId : ℕ
  bio : BiooilRec
  cond : CondRec
deriving DecidableEq

/-- Assign consecutive `SimulationId`s starting at `n` to a list of
(bio-oil, condition) pairs — the model of
`sim_matrix.insert(0, 'SimulationId', range(1, len(sim_matrix) + 1))`. -/
def numberTasks : ℕ → List (BiooilRec × CondRec) → List SimTask
  | _, [] => []
  | n, p :: ps => ⟨n, p.1, p.2⟩ :: numberTasks (n + 1) ps

/-- `create_simulation_matrix` from `create_simulation_matrix.py`: the
cross product of the bio-oil rows with the condition rows via a
constant-key merge (left rows in order, each matched with every right row
in order), then a dense sequential `SimulationId` starting at 1. -/
def create_simulation_matrix (bs : List BiooilRec) (cs : List CondRec) : List SimTask :=
  numberTasks 1 (bs.flatMap (fun b => cs.map (fun c => (b, c))))

/-- `organize_columns` from `create_simulation_matrix.py` only reorders the
dataframe's columns; on the row model it is the identity. -/
def organize_columns (df : List SimTask) : List SimTask := df

theorem length_numberTasks (n : ℕ) (ps : List (BiooilRec × CondRec)) :
    (numberTasks n ps).length = ps.length := by
  induction ps generalizing n with
  | nil => rfl
  | cons p ps ih => simp [numberTasks, ih]

theorem map_simulationId_numberTasks (n : ℕ) (ps : List (BiooilRec × CondRec)) :
    (numberTasks n ps).map SimTask.simulationId = List.range' n ps.length := by
  induction ps generalizing n with
  | nil => rfl
  | cons p ps ih => simp [numberTasks, List.range'_succ, ih]

theorem filter_bio_numberTasks (n : ℕ) (ps : List (BiooilRec × CondRec))
    (p : BiooilRec → Bool) :
    ((numberTasks n ps).filter (fun t => p t.bio)).length
      = ps.countP (fun q => p q.1) := by
  induction ps generalizing n with
  | nil => rfl
  | cons q ps ih =>
    simp only [numberTasks, List.filter_cons, List.countP_cons]
    by_cases h : p q.1
    · simp [h, ih]
    · simp [h, ih]

theorem length_cross (bs : List BiooilRec) (cs : List CondRec) :
    (bs.flatMap (fun b => cs.map (fun c => (b, c)))).length = bs.length * cs.length := by
  induction bs with
  | nil => simp
  | cons b bs ih => simp [ih, Nat.succ_mul, Nat.add_comm]

theorem countP_cross (bs : List BiooilRec) (cs : List CondRec) (p : BiooilRec → Bool) :
    (bs.flatMap (fun b => cs.map (fun c => (b, c)))).countP (fun q => p q.1)
      = bs.countP p * cs.length := by
  induction bs with
  | nil => simp
  | cons b bs ih =>
    simp only [List.flatMap_cons, List.countP_append, ih, List.countP_cons]
    by_cases h : p b
    · have : (cs.map (fun c => (b, c))).countP (fun q => p q.1) = cs.length := by
        rw [List.countP_map]
        simp [Function.comp_def, h, List.countP_true]
      simp [h, this, Nat.succ_mul, Nat.add_comm]
    · have : (cs.map (fun c => (b, c))).countP (fun q => p q.1) = 0 := by
        rw [List.countP_map]
        simp [Function.comp_def, h]
      simp [h, this]

theorem countP_eq_one_of_nodup_mem (bs : List BiooilRec) (b : BiooilRec)
    (hnd : (bs.map BiooilRec.biooilId).Nodup) (hb : b ∈ bs) :
    bs.countP (fun x => x.biooilId == b.biooilId) = 1 := by
  have h1 : (bs.map BiooilRec.biooilId).count b.biooilId = 1 :=
    List.count_eq_one_of_mem hnd (List.mem_map_of_mem _ hb)
  rw [List.count, List.countP_map] at h1
  simpa [Function.comp_def] using h1

/-- C5: for all M compositions and K conditions with no overlapping
(duplicated) identifiers, the matrix builder produces exactly M×K tasks,
their SimulationIds are exactly the dense integers 1..M×K (hence unique),
and each composition id groups exactly K tasks. -/
theorem claim_C5 (bs : List BiooilRec) (cs : List CondRec)
    (hnd : (bs.map BiooilRec.biooilId).Nodup)
    (_hnd2 : (cs.map CondRec.conditionId).Nodup) :
    (create_simulation_matrix bs cs).length = bs.length * cs.length
      ∧ (create_simulation_matrix bs cs).map SimTask.simulationId
          = List.range' 1 (bs.length * cs.length)
      ∧ ((create_simulation_matrix bs cs).map SimTask.simulationId).Nodup
      ∧ ∀ b ∈ bs,
          ((create_simulation_matrix bs cs).filter
              (fun t => t.bio.biooilId == b.biooilId)).length = cs.length := by
  have hmap : (create_simulation_matrix bs cs).map SimTask.simulationId
      = List.range' 1 (bs.length * cs.length) := by
    unfold create_simulation_matrix
    rw [map_simulationId_numberTasks, length_cross]
  refine ⟨?_, hmap, ?_, ?_⟩
  · unfold create_simulation_matrix
    rw [length_numberTasks, length_cross]
  · rw [hmap]
    exact List.nodup_range' _ _
  · intro b hb
    unfold create_simulation_matrix
    rw [filter_bio_numberTasks 1 _ (fun x => x.biooilId == b.biooilId),
      countP_cross bs cs (fun x => x.biooilId == b.biooilId)]
    rw [countP_eq_one_of_nodup_mem bs b hnd hb, Nat.one_mul]

/-- C5 (witness): the spec's concrete scenario — 2 compositions (ids 1, 2)
crossed with 3 conditions (ids 1, 2, 3) yield 6 tasks with SimulationId
1..6 and each composition appearing in exactly 3 tasks. -/
theorem claim_C5_witness :
    (create_simulation_matrix
        [⟨1, some 1, some 1, some 1, some 1, some 1, some 1⟩,
         ⟨2, some 2, some 2, some 2, some 2, some 2, some 2⟩]
        [⟨1, some 650, some 5, some 2⟩, ⟨2, some 750, some 5, some 2⟩,
         ⟨3, some 850, some 5, some 2⟩]).length = 6
      ∧ (create_simulation_matrix
          [⟨1, some 1, some 1, some 1, some 1, some 1, some 1⟩,
           ⟨2, some 2, some 2, some 2, some 2, some 2, some 2⟩]
          [⟨1, some 650, some 5, some 2⟩, ⟨2, some 750, some 5, some 2⟩,
           ⟨3, some 850, some 5, some 2⟩]).map SimTask.simulationId
          = [1, 2, 3, 4, 5, 6]
      ∧ ∀ b ∈ ([⟨1, some 1, some 1, some 1, some 1, some 1, some 1⟩,
           ⟨2, some 2, some 2, some 2, some 2, some 2, some 2⟩] : List BiooilRec),
          ((create_simulation_matrix
              [⟨1, some 1, some 1, some 1, some 1, some 1, some 1⟩,
               ⟨2, some 2, some 2, some 2, some 2, some 2, some 2⟩]
              [⟨1, some 650, some 5, some 2⟩, ⟨2, some 750, some 5, some 2⟩,
               ⟨3, some 850, some 5, some 2⟩]).filter
              (fun t => t.bio.biooilId == b.biooilId)).length = 3 := by
  have h := claim_C5
    [⟨1, some 1, some 1, some 1, some 1, some 1, some 1⟩,
     ⟨2, some 2, some 2, some 2, some 2, some 2, some 2⟩]
    [⟨1, some 650, some 5, some 2⟩, ⟨2, some 750, some 5, some 2⟩,
     ⟨3, some 850, some 5, some 2⟩]
    (by decide) (by decide)
  obtain ⟨h1, h2, _, h4⟩ := h
  exact ⟨h1, by rw [h2]; rfl, h4⟩

/-! ## Matrix validation and the `main` pipeline of `create_simulation_matrix.py` -/

/-- One validation issue appended to the `issues` list by
`validate_simulation_matrix` (messages abstracted to their kind). -/
inductive MatrixIssue
  | wrongCount (got : ℕ)
  | duplicateSimulationIds
  | missingCritical (col : String)
  | biooilCountsOff
deriving DecidableEq

/-- The critical columns checked for missing values by check 3 of
`validate_simulation_matrix`, in source order, as accessors into the row
model.  `SimulationId` and `BiooilId` are integer key columns and are
always present in the model. -/
def criticalColumns : List (String × (SimTask → Option ℚ)) :=
  [("SimulationId", fun t => some (t.simulationId : ℚ)),
   ("BiooilId", fun t => some (t.bio.biooilId : ℚ)),
   ("ReformerTemperature_C", fun t => t.cond.temp),
   ("ReformerPressure_bar", fun t => t.cond.pres),
   ("SteamToCarbonRatio", fun t => t.cond.sc),
   ("aromatics", fun t => t.bio.aromatics),
   ("acids", fun t => t.bio.acids),
   ("alcohols", fun t => t.bio.alcohols),
   ("furans", fun t => t.bio.furans),
   ("phenols", fun t => t.bio.phenols),
   ("aldehyde_ketone", fun t => t.bio.aldehyde_ketone)]

/-- Number of rows of `df` in which the given column is missing (the
model of `df.isnull().sum()[col]`). -/
def missingCount (df : List SimTask) (get : SimTask → Option ℚ) : ℕ :=
  df.countP (fun t => (get t).isNone)

/-- `validate_simulation_matrix` from `create_simulation_matrix.py`: the
list of issues accumulated by its four checks, in source order.
Check 1 compares the row count against the hard-coded expectation 1350
(30 bio-oils × 45 conditions); check 2 compares the number of distinct
SimulationIds with the row count; check 3 scans the critical columns for
missing values; check 4 requires every distinct BiooilId to appear exactly
45 times.  The function only prints and returns `len(issues) == 0` — it
raises nothing. -/
def validate_simulation_matrix (df : List SimTask) : List MatrixIssue :=
  (if df.length ≠ 1350 then [MatrixIssue.wrongCount df.length] else [])
    ++ (if ((df.map SimTask.simulationId).dedup).length ≠ df.length
        then [MatrixIssue.duplicateSimulationIds] else [])
    ++ criticalColumns.filterMap (fun p =>
        if 0 < missingCount df p.2 then some (MatrixIssue.missingCritical p.1) else none)
    ++ (if (df.map (fun t => t.bio.biooilId)).dedup.all
            (fun v => df.countP (fun t => t.bio.biooilId == v) == 45)
        then [] else [MatrixIssue.biooilCountsOff])

/-- The boolean `validate_simulation_matrix` actually returns
(`len(issues) == 0`). -/
def validation_passed (df : List SimTask) : Bool :=
  (validate_simulation_matrix df).isEmpty

/-- The `main` function of `create_simulation_matrix.py` inside its
`try` block, after the input files are loaded: build the cross-product
matrix (step 2), organize columns (step 3), validate (step 4) — whose
boolean result the source discards at line 303 — then display samples and
save (steps 5–6, modelled as succeeding).  An `Except.error` would be the
fatal-error path of the surrounding `try/except`; no step in the source
raises on a validation failure. -/
def mainPipeline (bs : List BiooilRec) (cs : List CondRec) :
    Except String (List SimTask) :=
  let m := create_simulation_matrix bs cs
  let m2 := organize_columns m
  let _passed := validation_passed m2
  Except.ok m2

/-- C4 (amended): when the built matrix violates a validation invariant
(wrong row count against the hard-coded 1350 expectation, duplicate
SimulationIds, a missing value in a critical column, or some composition
id not appearing exactly 45 times), `validate_simulation_matrix` detects
it and returns false, but no exception is raised and `main` ignores the
returned flag: the pipeline still completes and produces the output
matrix instead of aborting. -/
theorem claim_C4 (bs : List BiooilRec) (cs : List CondRec)
    (df : List SimTask)
    (hdf : df = organize_columns (create_simulation_matrix bs cs))
    (hviol : df.length ≠ 1350
      ∨ ((df.map SimTask.simulationId).dedup).length ≠ df.length
      ∨ (∃ p ∈ criticalColumns, 0 < missingCount df p.2)
      ∨ ¬ ∀ v ∈ (df.map (fun t => t.bio.biooilId)).dedup,
            df.countP (fun t => t.bio.biooilId == v) = 45) :
    validation_passed df = false ∧ mainPipeline bs cs = Except.ok df := by
  constructor
  · unfold validation_passed validate_simulation_matrix
    rw [List.isEmpty_eq_false_iff_exists_mem]
    rcases hviol with h | h | h | h
    · exact ⟨MatrixIssue.wrongCount df.length, by simp [h]⟩
    · refine ⟨MatrixIssue.duplicateSimulationIds, ?_⟩
      simp only [List.mem_append]
      refine Or.inl (Or.inl (Or.inr ?_))
      simp [h]
    · obtain ⟨p, hp, hmiss⟩ := h
      refine ⟨MatrixIssue.missingCritical p.1, ?_⟩
      simp only [List.mem_append]
      refine Or.inl (Or.inr ?_)
      exact List.mem_filterMap.mpr ⟨p, hp, by simp [hmiss]⟩
    · refine ⟨MatrixIssue.biooilCountsOff, ?_⟩
      simp only [List.mem_append]
      refine Or.inr ?_
      rw [if_neg]
      · simp
      · intro hall
        apply h
        intro v hv
        have := List.all_eq_true.mp hall v hv
        simpa using this
  · rw [hdf]
    rfl

/-- C4 (counterexample): a 1×1 input pair whose single bio-oil row has a
missing `aromatics` value.  The resulting matrix violates the invariants
(missing critical value; also row count 1 ≠ 1350 and the bio-oil appears
once, not 45 times), yet the pipeline neither raises nor aborts: the
validator merely returns false and `main` still produces the non-empty
output matrix. -/
theorem claim_C4_counterexample :
    validation_passed
        (organize_columns (create_simulation_matrix
          [⟨1, none, some 2, some 3, some 4, some 5, some 6⟩]
          [⟨1, some 650, some 5, some 2⟩])) = false
      ∧ mainPipeline
          [⟨1, none, some 2, some 3, some 4, some 5, some 6⟩]
          [⟨1, some 650, some 5, some 2⟩]
          = Except.ok (organize_columns (create_simulation_matrix
              [⟨1, none, some 2, some 3, some 4, some 5, some 6⟩]
              [⟨1, some 650, some 5, some 2⟩]))
      ∧ organize_columns (create_simulation_matrix
          [⟨1, none, some 2, some 3, some 4, some 5, some 6⟩]
          [⟨1, some 650, some 5, some 2⟩]) ≠ [] := by
  refine ⟨by decide, rfl, by decide⟩

/-- C4 (witness): instantiating the amended claim at the counterexample's
concrete input, whose matrix has a missing critical `aromatics` value. -/
theorem claim_C4_witness :
    validation_passed
        (organize_columns (create_simulation_matrix
          [⟨1, none, some 2, some 3, some 4, some 5, some 6⟩]
          [⟨1, some 650, some 5, some 2⟩])) = false
      ∧ mainPipeline
          [⟨1, none, some 2, some 3, some 4, some 5, some 6⟩]
          [⟨1, some 650, some 5, some 2⟩]
          = Except.ok (organize_columns (create_simulation_matrix
              [⟨1, none, some 2, some 3, some 4, some 5, some 6⟩]
              [⟨1, some 650, some 5, some 2⟩])) :=
  claim_C4
    [⟨1, none, some 2, some 3, some 4, some 5, some 6⟩]
    [⟨1, some 650, some 5, some 2⟩]
    (organize_columns (create_simulation_matrix
      [⟨1, none, some 2, some 3, some 4, some 5, some 6⟩]
      [⟨1, some 650, some 5, some 2⟩]))
    rfl
    (Or.inl (by decide))

/-! ## Batch partitioning (`AutomationRunner.run`, step 6) -/

/-- `total_batches = (len(df) + config.BATCH_SIZE - 1) // config.BATCH_SIZE`
from `run_automation.py`. -/
def total_batches (n bsize : ℕ) : ℕ := (n + bsize - 1) / bsize

/-- The batch subset for 1-based batch number `k`:
`start_idx = (batch_num - 1) * BATCH_SIZE`,
`end_idx = min(start_idx + BATCH_SIZE, len(df))`,
`df_batch = df.iloc[start_idx:end_idx]`. -/
def batch_slice {α : Type} (df : List α) (bsize k : ℕ) : List α :=
  (df.drop ((k - 1) * bsize)).take (min ((k - 1) * bsize + bsize) df.length - (k - 1) * bsize)

/-- The list of batches run by the loop
`for batch_num in range(1, total_batches + 1)` in `AutomationRunner.run`. -/
def run_batches {α : Type} (df : List α) (bsize : ℕ) : List (List α) :=
  (List.range' 1 (total_batches df.length bsize)).map (batch_slice df bsize)

theorem take_min_length {α : Type} (l : List α) (m : ℕ) :
    l.take (min m l.length) = l.take m := by
  rcases le_or_lt m l.length with h | h
  · rw [Nat.min_eq_left h]
  · rw [Nat.min_eq_right (Nat.le_of_lt h), List.take_length,
      List.take_of_length_le (Nat.le_of_lt h)]

theorem batch_slice_eq {α : Type} (df : List α) (bsize k : ℕ) :
    batch_slice df bsize k = (df.drop ((k - 1) * bsize)).take bsize := by
  unfold batch_slice
  have h1 : min ((k - 1) * bsize + bsize) df.length - (k - 1) * bsize
      = min bsize (df.length - (k - 1) * bsize) := by omega
  rw [h1, ← List.length_drop]
  exact take_min_length _ _

theorem length_batch_slice {α : Type} (df : List α) (bsize k : ℕ) :
    (batch_slice df bsize k).length = min bsize (df.length - (k - 1) * bsize) := by
  rw [batch_slice_eq, List.length_take, List.length_drop]

theorem flatten_chunks {α : Type} (df : List α) (bsize : ℕ) (n : ℕ) :
    ((List.range n).map (fun j => (df.drop (j * bsize)).take bsize)).flatten
      = df.take (n * bsize) := by
  induction n with
  | zero => simp
  | succ n ih =>
    rw [List.range_succ, List.map_append, List.flatten_append]
    simp only [List.map_cons, List.map_nil, List.flatten_cons, List.flatten_nil,
      List.append_nil]
    rw [ih, Nat.succ_mul, List.take_add]

theorem run_batches_eq_chunks {α : Type} (df : List α) (bsize : ℕ) :
    run_batches df bsize
      = (List.range (total_batches df.length bsize)).map
          (fun j => (df.drop (j * bsize)).take bsize) := by
  unfold run_batches
  rw [List.range'_eq_map_range, List.map_map]
  apply List.map_congr_left
  intro j _
  simp only [Function.comp_def]
  rw [batch_slice_eq]
  have hj : 1 + j - 1 = j := by omega
  rw [hj]

theorem total_batches_pred_div (n bsize : ℕ) (hb : 1 ≤ bsize) (hn : 1 ≤ n) :
    total_batches n bsize = (n - 1) / bsize + 1 := by
  unfold total_batches
  have h1 : n + bsize - 1 = (n - 1) + bsize := by omega
  rw [h1, Nat.add_div_right _ (by omega)]

theorem lt_of_mul_total_batches_pred (n bsize : ℕ) (hb : 1 ≤ bsize) (hn : 1 ≤ n) :
    (total_batches n bsize - 1) * bsize < n := by
  rw [total_batches_pred_div n bsize hb hn]
  simp only [Nat.add_sub_cancel]
  have := Nat.div_mul_le_self (n - 1) bsize
  omega

theorem le_mul_total_batches (n bsize : ℕ) (hb : 1 ≤ bsize) (hn : 1 ≤ n) :
    n ≤ total_batches n bsize * bsize := by
  rw [total_batches_pred_div n bsize hb hn, Nat.succ_mul]
  have e := Nat.div_add_mod (n - 1) bsize
  have hr : (n - 1) % bsize < bsize := Nat.mod_lt _ (by omega)
  have h2 : (n - 1) / bsize * bsize = bsize * ((n - 1) / bsize) := Nat.mul_comm _ _
  rw [h2]
  generalize bsize * ((n - 1) / bsize) = M at e ⊢
  omega

/-- C9: batch partition correctness — for a worklist of size N ≥ 1 and
batch size B ≥ 1, `AutomationRunner.run` forms exactly ⌈N/B⌉ batches,
every batch before the last has exactly B tasks, the last batch is
non-empty with at most B tasks, and concatenating the batches in order
reconstructs the original worklist exactly. -/
theorem claim_C9 {α : Type} (df : List α) (bsize : ℕ)
    (hb : 1 ≤ bsize) (hn : 1 ≤ df.length) :
    (run_batches df bsize).length = df.length ⌈/⌉ bsize
      ∧ (∀ k, 1 ≤ k → k < total_batches df.length bsize →
          (batch_slice df bsize k).length = bsize)
      ∧ (1 ≤ (batch_slice df bsize (total_batches df.length bsize)).length
          ∧ (batch_slice df bsize (total_batches df.length bsize)).length ≤ bsize)
      ∧ (run_batches df bsize).flatten = df := by
  have hceil : df.length ⌈/⌉ bsize = total_batches df.length bsize := by
    rw [Nat.ceilDiv_eq_add_pred_div]
    rfl
  have hlast := lt_of_mul_total_batches_pred df.length bsize hb hn
  have hfull := le_mul_total_batches df.length bsize hb hn
  refine ⟨?_, ?_, ?_, ?_⟩
  · rw [hceil]
    unfold run_batches
    rw [List.length_map, List.length_range']
  · intro k hk1 hk2
    rw [length_batch_slice]
    have hk3 : k * bsize ≤ (total_batches df.length bsize - 1) * bsize :=
      Nat.mul_le_mul_right bsize (by omega)
    have hk4 : (k - 1) * bsize = k * bsize - bsize := Nat.sub_one_mul k bsize
    have hk5 : bsize ≤ k * bsize := Nat.le_mul_of_pos_left bsize (by omega)
    omega
  · rw [length_batch_slice]
    omega
  · rw [run_batches_eq_chunks, flatten_chunks]
    exact List.take_of_length_le hfull

/-- C9 (witness): the spec's concrete scenario — 7 tasks with batch size 3
yield batches of sizes [3, 3, 1] whose concatenation is the worklist. -/
theorem claim_C9_witness :
    (run_batches [0, 1, 2, 3, 4, 5, 6] 3).map List.length = [3, 3, 1]
      ∧ (run_batches [0, 1, 2, 3, 4, 5, 6] 3).length = 7 ⌈/⌉ 3
      ∧ (run_batches [0, 1, 2, 3, 4, 5, 6] 3).flatten = [0, 1, 2, 3, 4, 5, 6] := by
  have h := claim_C9 [0, 1, 2, 3, 4, 5, 6] 3 (by decide) (by decide)
  exact ⟨by decide, h.1, h.2.2.2⟩

/-! ## Run statistics dictionary (`AutomationRunner.__init__`)

The runner's `self.stats` is a Python dict; it is modelled as an
association list so that `d[k] += 1` on an absent key is observable as a
`KeyError`. -/

/-- A Python `dict` from string keys to integer counters. -/
abbrev StatsDict := List (String × ℤ)

/-- `self.stats` as initialized by `AutomationRunner.__init__` (lines
38–45): keys `total`, `completed`, `converged`, `failed`, `skipped`,
`current_batch` — and no `error` key. -/
def initStats (total : ℤ) : StatsDict :=
  [("total", total), ("completed", 0), ("converged", 0), ("failed", 0),
   ("skipped", 0), ("current_batch", 0)]

/-- Dictionary read `d[k]`: the value at the first matching key, `none`
when the key is absent (a Python `KeyError`). -/
def dictGet (d : StatsDict) (k : String) : Option ℤ :=
  (d.find? (fun p => p.1 == k)).map Prod.snd

/-- Dictionary update `d[k] += 1`: `none` models the `KeyError` raised
when `k` is not a key of `d`. -/
def dictIncr (d : StatsDict) (k : String) : Option StatsDict :=
  match dictGet d k with
  | none => none
  | some _ => some (d.map (fun p => if p.1 == k then (p.1, p.2 + 1) else p))

/-! ## Single-task execution (`AutomationRunner.run_single_simulation`) -/

/-- The terminal outcome string returned by `run_single_simulation`:
`'converged'`, `'failed'` or `'error'`. -/
inductive SimResult
  | converged
  | failed
  | error
deriving DecidableEq

/-- The dict key `run_batch` uses for a result (the returned string
itself). -/
def resultKey : SimResult → String
  | SimResult.converged => "converged"
  | SimResult.failed => "failed"
  | SimResult.error => "error"

/-- Outcome of one call to an external collaborator (simulator or store):
either it returns a value or it raises an exception.  `run_single_simulation`
treats every such call as fallible. -/
inductive ExtCall (α : Type)
  | ok (a : α)
  | raise
deriving DecidableEq

/-- The behavior of the external collaborators for one task, one field per
call site of `run_single_simulation` (a call occurring at several program
points, such as `mark_simulation_failed`, is given one fixed outcome).
Booleans are the truthiness of the Python return value; `insertSim` is the
`db_sim_id` returned by `insert_simulation` (`none` = falsy failure);
`syngas` is the per-stream outcome of the `SYNGAS_STREAMS` loop
(`ok true` = data extracted and inserted, `ok false` = falsy data,
skipped). -/
structure TaskBehavior where
  setComp : ExtCall Bool
  setCond : ExtCall Bool
  runSim : ExtCall Bool
  markFailed : ExtCall Bool
  extractH2 : ExtCall Bool
  insertSim : ExtCall (Option ℕ)
  insertCond : ExtCall Bool
  insertH2 : ExtCall Bool
  syngas : List (ExtCall Bool)
  energyExtract : ExtCall Bool
  insertEnergy : ExtCall Bool
deriving DecidableEq

/-- A database operation attempted against the external store during one
task, in the order the source attempts them. -/
inductive DbOp
  | markFailed
  | insertSimulation
  | insertReformingConditions
  | insertHydrogenProduct
  | insertSyngasComposition
  | insertEnergyBalance
deriving DecidableEq

/-- The `except Exception` handler at lines 192–198 of
`run_automation.py`: attempt `mark_simulation_failed` and return
`'error'`; if that attempt itself raises, the exception escapes
`run_single_simulation` (modelled as `Except.error` carrying the store
operations attempted so far). -/
def handleTaskExc (b : TaskBehavior) (ops : List DbOp) :
    Except (List DbOp) (SimResult × List DbOp) :=
  match b.markFailed with
  | ExtCall.raise => Except.error (ops ++ [DbOp.markFailed])
  | ExtCall.ok _ => Except.ok (SimResult.error, ops ++ [DbOp.markFailed])

/-- The `for location, stream in config.SYNGAS_STREAMS.items()` loop:
per stream, extract (may raise — second component `true`) and insert when
the extracted data is truthy. -/
def runSyngasLoop : List (ExtCall Bool) → List DbOp → List DbOp × Bool
  | [], ops => (ops, false)
  | ExtCall.raise :: _, ops => (ops, true)
  | ExtCall.ok true :: rest, ops => runSyngasLoop rest (ops ++ [DbOp.insertSyngasComposition])
  | ExtCall.ok false :: rest, ops => runSyngasLoop rest ops

/-- `AutomationRunner.run_single_simulation` (lines 91–198): the returned
outcome together with the list of store operations attempted, following
the source's control flow step for step; `Except.error ops` is an uncaught
exception escaping the method after attempting `ops`. -/
def run_single_simulation (b : TaskBehavior) :
    Except (List DbOp) (SimResult × List DbOp) :=
  match b.setComp with
  | ExtCall.raise => handleTaskExc b []
  | ExtCall.ok false => Except.ok (SimResult.error, [])
  | ExtCall.ok true =>
    match b.setCond with
    | ExtCall.raise => handleTaskExc b []
    | ExtCall.ok false => Except.ok (SimResult.error, [])
    | ExtCall.ok true =>
      match b.runSim with
      | ExtCall.raise => handleTaskExc b []
      | ExtCall.ok false =>
        match b.markFailed with
        | ExtCall.raise => handleTaskExc b [DbOp.markFailed]
        | ExtCall.ok _ => Except.ok (SimResult.failed, [DbOp.markFailed])
      | ExtCall.ok true =>
        match b.extractH2 with
        | ExtCall.raise => handleTaskExc b []
        | ExtCall.ok false =>
          match b.markFailed with
          | ExtCall.raise => handleTaskExc b [DbOp.markFailed]
          | ExtCall.ok _ => Except.ok (SimResult.error, [DbOp.markFailed])
        | ExtCall.ok true =>
          match b.insertSim with
          | ExtCall.raise => handleTaskExc b []
          | ExtCall.ok none => Except.ok (SimResult.error, [DbOp.insertSimulation])
          | ExtCall.ok (some _) =>
            match b.insertCond with
            | ExtCall.raise => handleTaskExc b [DbOp.insertSimulation]
            | ExtCall.ok _ =>
              match b.insertH2 with
              | ExtCall.raise =>
                  handleTaskExc b [DbOp.insertSimulation, DbOp.insertReformingConditions]
              | ExtCall.ok _ =>
                match runSyngasLoop b.syngas
                    [DbOp.insertSimulation, DbOp.insertReformingConditions,
                     DbOp.insertHydrogenProduct] with
                | (ops, true) => handleTaskExc b ops
                | (ops, false) =>
                  match b.energyExtract with
                  | ExtCall.raise => handleTaskExc b ops
                  | ExtCall.ok false => Except.ok (SimResult.converged, ops)
                  | ExtCall.ok true =>
                    match b.insertEnergy with
                    | ExtCall.raise => handleTaskExc b (ops ++ [DbOp.insertEnergyBalance])
                    | ExtCall.ok _ =>
                        Except.ok (SimResult.converged, ops ++ [DbOp.insertEnergyBalance])

theorem mem_runSyngasLoop (x : DbOp) (l : List (ExtCall Bool)) (ops : List DbOp)
    (hx : x ∈ ops) : x ∈ (runSyngasLoop l ops).1 := by
  induction l generalizing ops with
  | nil => exact hx
  | cons e rest ih =>
    match e with
    | ExtCall.raise => exact hx
    | ExtCall.ok true => exact ih _ (List.mem_append_left _ hx)
    | ExtCall.ok false => exact ih _ hx

/-- C3 (amended): whenever `run_single_simulation` returns normally,
a Converged outcome has had the simulation record inserted and a Failed
outcome has had `mark_simulation_failed` attempted before the runner moves
on; an Error outcome also has at least one store-record attempt — except
when it arises from `set_biooil_composition` or `set_process_conditions`
returning false, in which case the task ends in Error with no store
operation attempted at all. -/
theorem claim_C3 (b : TaskBehavior) (res : SimResult) (ops : List DbOp)
    (h : run_single_simulation b = Except.ok (res, ops)) :
    (res = SimResult.converged → DbOp.insertSimulation ∈ ops)
      ∧ (res = SimResult.failed → DbOp.markFailed ∈ ops)
      ∧ (res = SimResult.error → b.setComp ≠ ExtCall.ok false →
          b.setCond ≠ ExtCall.ok false → ops ≠ []) := by
  obtain ⟨sc, scd, rs, mf, eh, isim, ic, ih2, syn, ee, ie⟩ := b
  unfold run_single_simulation at h
  dsimp only at h
  rcases sc with a | _
  case raise =>
    unfold handleTaskExc at h
    rcases mf with a | _ <;>
    first
      | (simp_all; done)
      | (injection h with h1; injection h1 with h2 h3; subst h2; subst h3; simp_all)
  rcases a with _ | _
  case false =>
    first
      | (simp_all; done)
      | (injection h with h1; injection h1 with h2 h3; subst h2; subst h3; simp_all)
  rcases scd with a | _
  case raise =>
    unfold handleTaskExc at h
    rcases mf with a | _ <;>
    first
      | (simp_all; done)
      | (injection h with h1; injection h1 with h2 h3; subst h2; subst h3; simp_all)
  rcases a with _ | _
  case false =>
    first
      | (simp_all; done)
      | (injection h with h1; injection h1 with h2 h3; subst h2; subst h3; simp_all)
  rcases rs with a | _
  case raise =>
    unfold handleTaskExc at h
    rcases mf with a | _ <;>
    first
      | (simp_all; done)
      | (injection h with h1; injection h1 with h2 h3; subst h2; subst h3; simp_all)
  rcases a with _ | _
  case false =>
    rcases mf with a | _ <;> unfold handleTaskExc at h <;>
    first
      | (simp_all; done)
      | (injection h with h1; injection h1 with h2 h3; subst h2; subst h3; simp_all)
  rcases eh with a | _
  case raise =>
    unfold handleTaskExc at h
    rcases mf with a | _ <;>
    first
      | (simp_all; done)
      | (injection h with h1; injection h1 with h2 h3; subst h2; subst h3; simp_all)
  rcases a with _ | _
  case false =>
    rcases mf with a | _ <;> unfold handleTaskExc at h <;>
    first
      | (simp_all; done)
      | (injection h with h1; injection h1 with h2 h3; subst h2; subst h3; simp_all)
  rcases isim with a | _
  case raise =>
    unfold handleTaskExc at h
    rcases mf with a | _ <;>
    first
      | (simp_all; done)
      | (injection h with h1; injection h1 with h2 h3; subst h2; subst h3; simp_all)
  rcases a with _ | v
  case none =>
    first
      | (simp_all; done)
      | (injection h with h1; injection h1 with h2 h3; subst h2; subst h3; simp_all)
  rcases ic with a | _
  case raise =>
    unfold handleTaskExc at h
    rcases mf with a | _ <;>
    first
      | (simp_all; done)
      | (injection h with h1; injection h1 with h2 h3; subst h2; subst h3; simp_all)
  rcases ih2 with a | _
  case raise =>
    unfold handleTaskExc at h
    rcases mf with a | _ <;>
    first
      | (simp_all; done)
      | (injection h with h1; injection h1 with h2 h3; subst h2; subst h3; simp_all)
  have hmem : DbOp.insertSimulation ∈ (runSyngasLoop syn
      [DbOp.insertSimulation, DbOp.insertReformingConditions,
       DbOp.insertHydrogenProduct]).1 :=
    mem_runSyngasLoop _ _ _ (by simp)
  rcases hsl : runSyngasLoop syn
      [DbOp.insertSimulation, DbOp.insertReformingConditions,
       DbOp.insertHydrogenProduct] with ⟨ops', raised⟩
  rw [hsl] at h hmem
  rcases raised with _ | _
  case true =>
    unfold handleTaskExc at h
    rcases mf with a | _ <;>
    first
      | (simp_all; done)
      | (injection h with h1; injection h1 with h2 h3; subst h2; subst h3; simp_all)
  rcases ee with a | _
  case raise =>
    unfold handleTaskExc at h
    rcases mf with a | _ <;>
    first
      | (simp_all; done)
      | (injection h with h1; injection h1 with h2 h3; subst h2; subst h3; simp_all)
  rcases a with _ | _
  case false =>
    first
      | (simp_all; done)
      | (injection h with h1; injection h1 with h2 h3; subst h2; subst h3; simp_all)
  rcases ie with a | _
  case raise =>
    unfold handleTaskExc at h
    rcases mf with a | _ <;>
    first
      | (simp_all; done)
      | (injection h with h1; injection h1 with h2 h3; subst h2; subst h3; simp_all)
  first
      | (simp_all; done)
      | (injection h with h1; injection h1 with h2 h3; subst h2; subst h3; simp_all)

/-- C3 (counterexample): a task whose `set_biooil_composition` call
returns false (line 113: `return 'error'`) ends in the Error terminal
outcome with an empty list of attempted store operations — no record of
the outcome is attempted in the store before the runner moves on. -/
theorem claim_C3_counterexample :
    run_single_simulation
        ⟨ExtCall.ok false, ExtCall.ok true, ExtCall.ok true, ExtCall.ok true,
         ExtCall.ok true, ExtCall.ok (some 1), ExtCall.ok true, ExtCall.ok true,
         [], ExtCall.ok true, ExtCall.ok true⟩
      = Except.ok (SimResult.error, []) := by
  rfl

/-- C3 (witness): applying the amended claim to a task that converges
with every external call succeeding: the Converged outcome has the
simulation record among the attempted store operations. -/
theorem claim_C3_witness :
    run_single_simulation
        ⟨ExtCall.ok true, ExtCall.ok true, ExtCall.ok true, ExtCall.ok true,
         ExtCall.ok true, ExtCall.ok (some 1), ExtCall.ok true, ExtCall.ok true,
         [ExtCall.ok true], ExtCall.ok true, ExtCall.ok true⟩
      = Except.ok (SimResult.converged,
          [DbOp.insertSimulation, DbOp.insertReformingConditions,
           DbOp.insertHydrogenProduct, DbOp.insertSyngasComposition,
           DbOp.insertEnergyBalance])
      ∧ DbOp.insertSimulation ∈
          [DbOp.insertSimulation, DbOp.insertReformingConditions,
           DbOp.insertHydrogenProduct, DbOp.insertSyngasComposition,
           DbOp.insertEnergyBalance] := by
  have h := claim_C3
    ⟨ExtCall.ok true, ExtCall.ok true, ExtCall.ok true, ExtCall.ok true,
     ExtCall.ok true, ExtCall.ok (some 1), ExtCall.ok true, ExtCall.ok true,
     [ExtCall.ok true], ExtCall.ok true, ExtCall.ok true⟩
    SimResult.converged
    [DbOp.insertSimulation, DbOp.insertReformingConditions,
     DbOp.insertHydrogenProduct, DbOp.insertSyngasComposition,
     DbOp.insertEnergyBalance]
    rfl
  exact ⟨rfl, h.1 rfl⟩

/-! ## Batch execution (`AutomationRunner.run_batch`) and the summary
(`AutomationRunner.print_summary`) -/

/-- `batch_stats` as initialized at line 215 of `run_automation.py`:
unlike `self.stats`, it does have an `error` key. -/
def initBatchStats : StatsDict :=
  [("converged", 0), ("failed", 0), ("error", 0), ("skipped", 0)]

/-- How a run of `run_batch` aborts: an exception escaping a task's
`run_single_simulation`, or a `KeyError` raised by a counter update.
Both carry the outcomes of the tasks already executed. -/
inductive RunAbort
  | uncaughtTaskExc (executed : List SimResult)
  | keyError (k : String) (executed : List SimResult)
deriving DecidableEq

/-- `AutomationRunner.run_batch` (lines 200–241): run each task of the
batch in order; after each task, `batch_stats[result] += 1`,
`self.stats[result] += 1` and `self.stats['completed'] += 1`.  There is
no try/except around the loop body, so a `KeyError` from a counter update
(or an exception escaping `run_single_simulation`) propagates and aborts
the batch with the remaining tasks unexecuted.  The third component
accumulates the outcomes of the executed tasks; progress printing (lines
228–229) reads only keys that exist and is omitted. -/
def run_batch (tasks : List TaskBehavior) (stats bstats : StatsDict)
    (done : List SimResult) : Except RunAbort (StatsDict × StatsDict × List SimResult) :=
  match tasks with
  | [] => Except.ok (stats, bstats, done)
  | t :: rest =>
    match run_single_simulation t with
    | Except.error _ => Except.error (RunAbort.uncaughtTaskExc done)
    | Except.ok (res, _) =>
      match dictIncr bstats (resultKey res) with
      | none => Except.error (RunAbort.keyError (resultKey res) (done ++ [res]))
      | some bstats2 =>
        match dictIncr stats (resultKey res) with
        | none => Except.error (RunAbort.keyError (resultKey res) (done ++ [res]))
        | some stats2 =>
          match dictIncr stats2 "completed" with
          | none => Except.error (RunAbort.keyError "completed" (done ++ [res]))
          | some stats3 => run_batch rest stats3 bstats2 (done ++ [res])

/-- C1: the code violates failure isolation.  A task whose execution
raises is indeed caught at the task boundary (`run_single_simulation`
returns `'error'`), but `self.stats` has no `'error'` key, so the
statistics update `self.stats[result] += 1` in `run_batch` raises
`KeyError('error')`, which nothing catches: the batch aborts after the
failing task and the following tasks never execute.  Evaluated here on a
two-task batch whose first task raises inside `run_simulation` and whose
second task would converge: the run aborts with `KeyError('error')`
having executed only the first task. -/
theorem claim_C1 :
    run_single_simulation
        ⟨ExtCall.ok true, ExtCall.ok true, ExtCall.raise, ExtCall.ok true,
         ExtCall.ok true, ExtCall.ok (some 1), ExtCall.ok true, ExtCall.ok true,
         [ExtCall.ok true], ExtCall.ok true, ExtCall.ok true⟩
      = Except.ok (SimResult.error, [DbOp.markFailed])
      ∧ dictGet (initStats 2) "error" = none
      ∧ run_batch
          [⟨ExtCall.ok true, ExtCall.ok true, ExtCall.raise, ExtCall.ok true,
            ExtCall.ok true, ExtCall.ok (some 1), ExtCall.ok true, ExtCall.ok true,
            [ExtCall.ok true], ExtCall.ok true, ExtCall.ok true⟩,
           ⟨ExtCall.ok true, ExtCall.ok true, ExtCall.ok true, ExtCall.ok true,
            ExtCall.ok true, ExtCall.ok (some 1), ExtCall.ok true, ExtCall.ok true,
            [ExtCall.ok true], ExtCall.ok true, ExtCall.ok true⟩]
          (initStats 2) initBatchStats []
        = Except.error (RunAbort.keyError "error" [SimResult.error]) := by
  refine ⟨rfl, rfl, ?_⟩
  rfl

/-- A Python exception raised during `print_summary`. -/
inductive PyExc
  | keyError (k : String)
  | zeroDivision
deriving DecidableEq

/-- Dictionary read as `print_summary` performs it, `KeyError` as an
`Except` error. -/
def dictGetE (d : StatsDict) (k : String) : Except PyExc ℤ :=
  match dictGet d k with
  | some v => Except.ok v
  | none => Except.error (PyExc.keyError k)

/-- The values `print_summary` would display (print formatting
abstracted away). -/
structure SummaryData where
  total : ℤ
  completed : ℤ
  converged : ℤ
  pct : ℚ
  failed : ℤ
  errors : ℤ
  skipped : ℤ
  remaining : ℤ
  elapsedHours : ℚ
  avgTime : Option ℚ
deriving DecidableEq

/-- `AutomationRunner.print_summary` (lines 288–307), with the stats
lookups and arithmetic in the source's evaluation order: `total`,
`completed`, `converged`, then the percentage
`converged / completed * 100` (ZeroDivisionError when `completed = 0`),
then `failed`, then `self.stats['error']` (KeyError when absent), then
`skipped`, remaining, elapsed time, and the average-per-task line
guarded by `completed > 0`. -/
def print_summary (stats : StatsDict) (elapsed : ℚ) : Except PyExc SummaryData := do
  let total ← dictGetE stats "total"
  let completed ← dictGetE stats "completed"
  let conv ← dictGetE stats "converged"
  let pct ← if completed = 0 then Except.error PyExc.zeroDivision
    else Except.ok ((conv : ℚ) / (completed : ℚ) * 100)
  let failed ← dictGetE stats "failed"
  let errs ← dictGetE stats "error"
  let skipped ← dictGetE stats "skipped"
  let avg : Option ℚ := if 0 < completed then some (elapsed / (completed : ℚ)) else none
  Except.ok ⟨total, completed, conv, pct, failed, errs, skipped,
    total - completed, elapsed / 3600, avg⟩

/-- C8: contrary to the claim, the summary printer has failure modes on
every reachable counter state: `self.stats` never contains an `'error'`
key (it is absent from `__init__` and `run_batch`'s `self.stats['error']
+= 1` raises before it could be added), so line 300's
`self.stats['error']` raises `KeyError`; and with zero completed tasks
line 298's `converged/completed` raises `ZeroDivisionError` first.
For every stats dict with the initialized keys present but no `'error'`
key, `print_summary` raises rather than printing the summary. -/
theorem claim_C8 (stats : StatsDict) (elapsed : ℚ) (t c v f : ℤ)
    (h1 : dictGet stats "total" = some t)
    (h2 : dictGet stats "completed" = some c)
    (h3 : dictGet stats "converged" = some v)
    (h4 : dictGet stats "failed" = some f)
    (h5 : dictGet stats "error" = none) :
    print_summary stats elapsed
      = Except.error (if c = 0 then PyExc.zeroDivision else PyExc.keyError "error") := by
  unfold print_summary dictGetE
  rw [h1, h2, h3]
  by_cases hc : c = 0
  · subst hc
    simp [Bind.bind, Except.bind]
  · rw [if_neg hc]
    simp only [Bind.bind, Except.bind]
    rw [if_neg hc, h4, h5]

/-- C8 (witness): at the initial statistics (a run aborted before any
task completed) the summary raises `ZeroDivisionError`; after one
converged task it raises `KeyError('error')`. -/
theorem claim_C8_witness :
    print_summary (initStats 10) 0 = Except.error PyExc.zeroDivision
      ∧ print_summary
          [("total", 10), ("completed", 1), ("converged", 1), ("failed", 0),
           ("skipped", 0), ("current_batch", 0)] 0
        = Except.error (PyExc.keyError "error") := by
  constructor
  · have h := claim_C8 (initStats 10) 0 10 0 0 0 rfl rfl rfl rfl rfl
    simpa using h
  · have h := claim_C8
      [("total", 10), ("completed", 1), ("converged", 1), ("failed", 0),
       ("skipped", 0), ("current_batch", 0)] 0 10 1 1 0 rfl rfl rfl rfl rfl
    simpa using h

/-! ## Resume filtering (`AutomationRunner.run`, step 5) -/

/-- Step 5 of `AutomationRunner.run` (lines 347–355) with resume enabled:
`completed` is the set of BiooilIds the store reports as Converged or
Failed (`DatabaseOperations.get_completed_simulations`).  When the set is
truthy (non-empty), the worklist is filtered by
`df[~df['BiooilId'].isin(completed)]` and
`self.stats['skipped'] = len(completed)`; otherwise the worklist and the
skipped counter are untouched.  Returns (filtered worklist, skipped). -/
def resume_filter (df : List SimTask) (completed : Finset ℤ) : List SimTask × ℕ :=
  if completed = ∅ then (df, 0)
  else (df.filter (fun t => ! decide (t.bio.biooilId ∈ completed)), completed.card)

/-- C2 (amended): with a non-empty completed set {c}, the filtered
worklist excludes exactly the tasks whose composition id is in {c} and
retains every other task in order; the skipped counter, however, is set
to the number of distinct completed composition ids (`len(completed)`),
not to the number of tasks removed from the worklist — the two agree only
when each completed id matches exactly one task.  With an empty completed
set nothing is filtered and skipped stays 0. -/
theorem claim_C2 (df : List SimTask) (completed : Finset ℤ) :
    (completed ≠ ∅ →
      (∀ t ∈ (resume_filter df completed).1, t ∈ df ∧ t.bio.biooilId ∉ completed)
        ∧ (∀ t ∈ df, t.bio.biooilId ∉ completed → t ∈ (resume_filter df completed).1)
        ∧ (resume_filter df completed).1.Sublist df
        ∧ (resume_filter df completed).2 = completed.card)
      ∧ (completed = ∅ → resume_filter df completed = (df, 0)) := by
  constructor
  · intro hne
    unfold resume_filter
    rw [if_neg hne]
    refine ⟨?_, ?_, List.filter_sublist df, rfl⟩
    · intro t ht
      have h2 := List.of_mem_filter ht
      simp only [Bool.not_eq_true', decide_eq_false_iff_not] at h2
      exact ⟨List.mem_of_mem_filter ht, h2⟩
    · intro t ht hnotin
      apply List.mem_filter.mpr
      refine ⟨ht, ?_⟩
      simp [hnotin]
  · intro he
    unfold resume_filter
    rw [if_pos he]

/-- C2 (counterexample): a worklist of 2 tasks, both for composition
BiooilId 1 (one composition × two conditions), with the store reporting
{1} as completed: both tasks are removed (2 tasks), but the skipped
counter is `len(completed) = 1` — not the number of removed tasks. -/
theorem claim_C2_counterexample :
    (resume_filter
        (create_simulation_matrix
          [⟨1, some 1, some 1, some 1, some 1, some 1, some 1⟩]
          [⟨1, some 650, some 5, some 2⟩, ⟨2, some 750, some 5, some 2⟩])
        {1}).1 = []
      ∧ (create_simulation_matrix
          [⟨1, some 1, some 1, some 1, some 1, some 1, some 1⟩]
          [⟨1, some 650, some 5, some 2⟩, ⟨2, some 750, some 5, some 2⟩]).length
          - ((resume_filter
              (create_simulation_matrix
                [⟨1, some 1, some 1, some 1, some 1, some 1, some 1⟩]
                [⟨1, some 650, some 5, some 2⟩, ⟨2, some 750, some 5, some 2⟩])
              {1}).1).length = 2
      ∧ (resume_filter
          (create_simulation_matrix
            [⟨1, some 1, some 1, some 1, some 1, some 1, some 1⟩]
            [⟨1, some 650, some 5, some 2⟩, ⟨2, some 750, some 5, some 2⟩])
          {1}).2 = 1 := by
  refine ⟨by decide, by decide, by decide⟩

/-- C2 (witness): applying the amended claim to the counterexample's
concrete worklist and completed set {1}. -/
theorem claim_C2_witness :
    (∀ t ∈ (resume_filter
        (create_simulation_matrix
          [⟨1, some 1, some 1, some 1, some 1, some 1, some 1⟩]
          [⟨1, some 650, some 5, some 2⟩, ⟨2, some 750, some 5, some 2⟩])
        ({1} : Finset ℤ)).1,
        t ∈ create_simulation_matrix
          [⟨1, some 1, some 1, some 1, some 1, some 1, some 1⟩]
          [⟨1, some 650, some 5, some 2⟩, ⟨2, some 750, some 5, some 2⟩]
          ∧ t.bio.biooilId ∉ ({1} : Finset ℤ))
      ∧ (resume_filter
          (create_simulation_matrix
            [⟨1, some 1, some 1, some 1, some 1, some 1, some 1⟩]
            [⟨1, some 650, some 5, some 2⟩, ⟨2, some 750, some 5, some 2⟩])
          ({1} : Finset ℤ)).2 = ({1} : Finset ℤ).card := by
  have h := (claim_C2
    (create_simulation_matrix
      [⟨1, some 1, some 1, some 1, some 1, some 1, some 1⟩]
      [⟨1, some 650, some 5, some 2⟩, ⟨2, some 750, some 5, some 2⟩])
    ({1} : Finset ℤ)).1 (by decide)
  exact ⟨h.1, h.2.2.2⟩

/-! ## Composition preparation
(`AutomationRunner.prepare_bio_oil_composition`) -/

/-- The six composition columns of a worklist row as read by
`prepare_bio_oil_composition` (percent values). -/
structure RowComp where
  aromatics : ℚ
  acids : ℚ
  alcohols : ℚ
  furans : ℚ
  phenols : ℚ
  aldehyde_ketone : ℚ
deriving DecidableEq

/-- Sum of the six components of a `RowComp`. -/
def compSum (r : RowComp) : ℚ :=
  r.aromatics + r.acids + r.alcohols + r.furans + r.phenols + r.aldehyde_ketone

/-- `AutomationRunner.prepare_bio_oil_composition` (lines 73–89): divide
each of the six components by 100 (percent → fraction), then — only when
their sum is positive — normalize each by the sum so the six values sum
to 1. -/
def prepare_bio_oil_composition (r : RowComp) : RowComp :=
  let c : RowComp := ⟨r.aromatics / 100, r.acids / 100, r.alcohols / 100,
    r.furans / 100, r.phenols / 100, r.aldehyde_ketone / 100⟩
  let total := compSum c
  if 0 < total then
    ⟨c.aromatics / total, c.acids / total, c.alcohols / total,
     c.furans / total, c.phenols / total, c.aldehyde_ketone / total⟩
  else c

/-- C10: for every row whose six composition components are non-negative
with a positive sum, the composition passed to the simulator consists of
six non-negative fractions that sum exactly to 1, each proportional to
its input (component i equals input i divided by the input sum); if the
six components sum to zero, the values passed are the inputs divided by
100, unnormalized.  (Arithmetic is modelled exactly over ℚ.) -/
theorem claim_C10 (r : RowComp) :
    ((0 ≤ r.aromatics ∧ 0 ≤ r.acids ∧ 0 ≤ r.alcohols ∧ 0 ≤ r.furans
        ∧ 0 ≤ r.phenols ∧ 0 ≤ r.aldehyde_ketone) → 0 < compSum r →
      (0 ≤ (prepare_bio_oil_composition r).aromatics
          ∧ 0 ≤ (prepare_bio_oil_composition r).acids
          ∧ 0 ≤ (prepare_bio_oil_composition r).alcohols
          ∧ 0 ≤ (prepare_bio_oil_composition r).furans
          ∧ 0 ≤ (prepare_bio_oil_composition r).phenols
          ∧ 0 ≤ (prepare_bio_oil_composition r).aldehyde_ketone)
        ∧ compSum (prepare_bio_oil_composition r) = 1
        ∧ prepare_bio_oil_composition r
            = ⟨r.aromatics / compSum r, r.acids / compSum r, r.alcohols / compSum r,
               r.furans / compSum r, r.phenols / compSum r,
               r.aldehyde_ketone / compSum r⟩)
      ∧ (compSum r = 0 →
          prepare_bio_oil_composition r
            = ⟨r.aromatics / 100, r.acids / 100, r.alcohols / 100,
               r.furans / 100, r.phenols / 100, r.aldehyde_ketone / 100⟩) := by
  obtain ⟨a1, a2, a3, a4, a5, a6⟩ := r
  constructor
  · intro hnn hpos
    obtain ⟨n1, n2, n3, n4, n5, n6⟩ := hnn
    simp only [compSum] at hpos
    have htot : (0 : ℚ) < a1 / 100 + a2 / 100 + a3 / 100 + a4 / 100 + a5 / 100 + a6 / 100 := by
      linarith
    have heq : prepare_bio_oil_composition ⟨a1, a2, a3, a4, a5, a6⟩
        = ⟨a1 / (a1 + a2 + a3 + a4 + a5 + a6), a2 / (a1 + a2 + a3 + a4 + a5 + a6),
           a3 / (a1 + a2 + a3 + a4 + a5 + a6), a4 / (a1 + a2 + a3 + a4 + a5 + a6),
           a5 / (a1 + a2 + a3 + a4 + a5 + a6), a6 / (a1 + a2 + a3 + a4 + a5 + a6)⟩ := by
      unfold prepare_bio_oil_composition
      simp only [compSum]
      rw [if_pos htot]
      have hs : a1 + a2 + a3 + a4 + a5 + a6 ≠ 0 := ne_of_gt hpos
      congr 1 <;> (field_simp; try ring)
    refine ⟨?_, ?_, ?_⟩
    · rw [heq]
      have hsnn : (0 : ℚ) ≤ a1 + a2 + a3 + a4 + a5 + a6 := le_of_lt hpos
      exact ⟨div_nonneg n1 hsnn, div_nonneg n2 hsnn, div_nonneg n3 hsnn,
        div_nonneg n4 hsnn, div_nonneg n5 hsnn, div_nonneg n6 hsnn⟩
    · rw [heq]
      simp only [compSum]
      have hs : a1 + a2 + a3 + a4 + a5 + a6 ≠ 0 := ne_of_gt hpos
      field_simp
    · rw [heq]
      simp only [compSum]
  · intro hzero
    simp only [compSum] at hzero
    unfold prepare_bio_oil_composition
    simp only [compSum]
    rw [if_neg]
    intro hpos
    have : a1 / 100 + a2 / 100 + a3 / 100 + a4 / 100 + a5 / 100 + a6 / 100
        = (a1 + a2 + a3 + a4 + a5 + a6) / 100 := by ring
    rw [this, hzero] at hpos
    norm_num at hpos

/-- C10 (witness): applying the claim to the concrete row
(10, 20, 30, 10, 20, 10), whose sum 100 is positive — the prepared
composition sums to exactly 1 — and to the all-zero row, which is passed
through divided by 100. -/
theorem claim_C10_witness :
    compSum (prepare_bio_oil_composition ⟨10, 20, 30, 10, 20, 10⟩) = 1
      ∧ prepare_bio_oil_composition ⟨0, 0, 0, 0, 0, 0⟩
          = ⟨0 / 100, 0 / 100, 0 / 100, 0 / 100, 0 / 100, 0 / 100⟩ := by
  constructor
  · have h := (claim_C10 ⟨10, 20, 30, 10, 20, 10⟩).1
      ⟨by norm_num, by norm_num, by norm_num, by norm_num, by norm_num, by norm_num⟩
      (by norm_num [compSum])
    exact h.2.1
  · exact (claim_C10 ⟨0, 0, 0, 0, 0, 0⟩).2 (by norm_num [compSum])

end BiooilPipeline
